import Mathlib

/-!
# Verification of the envelope-app WebSocket session core

Shallow embedding of `src/lib/websocket/WebSocketManager.ts` (class
`WebSocketManager` and class `RoomsWebSocketManager`) and of the admin-flag
state kept by the `useWebSocketGame` hook.  Messages are UTF-8 text; the
JavaScript regular expressions of the source are modelled as executable
functions over `List Char` with JavaScript semantics (`.` does not match
a newline, `\s` is whitespace, `test`/`match` search for the leftmost
occurrence, a capture that is the empty string is falsy).
-/

namespace EnvelopeApp

/-- All starting positions strictly after an occurrence of `pat` in `s`,
left to right: the suffixes of `s` that follow each match of the literal
`pat` (the starting positions a JS regex engine tries, in order). -/
def tailsAfter (pat : List Char) : List Char → List (List Char)
  | [] => if pat.isPrefixOf ([] : List Char) then [[]] else []
  | c :: rest =>
    (if pat.isPrefixOf (c :: rest) then [(c :: rest).drop pat.length] else [])
      ++ tailsAfter pat rest

/-- The suffix of `s` after the first occurrence of the literal `pat`
(`none` when `pat` does not occur).  This is where a JS regex continues
matching after the literal part of the pattern. -/
def afterFirst (pat s : List Char) : Option (List Char) :=
  (tailsAfter pat s).head?

/-- `true` iff the literal `pat` occurs in `s`: JS `regex.test(s)` for a
regex that is a plain literal (all metacharacters escaped). -/
def containsSub (pat s : List Char) : Bool :=
  (afterFirst pat s).isSome

/-- JS capture group `(.*)` placed after a literal: the characters from
the first occurrence of the literal to the next newline or the end of
the string (`.` does not match `'\n'`). -/
def captureAfter (pat s : List Char) : Option (List Char) :=
  (afterFirst pat s).map (List.takeWhile (· ≠ '\n'))

/-- JS `String.prototype.trim`: strip leading and trailing whitespace. -/
def trimChars (s : List Char) : List Char :=
  ((s.dropWhile Char.isWhitespace).reverse.dropWhile Char.isWhitespace).reverse

/-- Does `\s*→` match at the head of `cs`?  (Greedy whitespace then the
literal arrow, as in the tail of the regex `\[RESULT\]:\s*(.*?)\s*→`.) -/
def arrowAfterWS (cs : List Char) : Bool :=
  match cs.dropWhile Char.isWhitespace with
  | '→' :: _ => true
  | _ => false

/-- The lazy capture `(.*?)\s*→` scanned left to right: the capture grows
one non-newline character at a time and stops at the first position from
which `\s*→` matches.  `acc` holds the capture accumulated so far in
reverse. -/
def lazyCapToArrow (acc : List Char) : List Char → Option (List Char)
  | [] => if arrowAfterWS [] then some acc.reverse else none
  | c :: rest =>
    if arrowAfterWS (c :: rest) then some acc.reverse
    else if c = '\n' then none
    else lazyCapToArrow (c :: acc) rest

/-- Matching `\s*(.*?)\s*→` against the text that follows `[RESULT]:`:
the leading `\s*` is greedy, then the lazy capture runs to the first
reachable arrow. -/
def arrowCap (s : List Char) : Option (List Char) :=
  lazyCapToArrow [] (s.dropWhile Char.isWhitespace)

/-- The capture of `resultThemeRegex = /\[RESULT\]:\s*(.*?)\s*→/` on a
whole message: the engine tries each occurrence of `[RESULT]:` left to
right and returns the capture at the first occurrence whose continuation
matches. -/
def resultThemeCap (s : List Char) : Option (List Char) :=
  (tailsAfter "[RESULT]:".toList s).findSome? arrowCap

/-- One event notification batch produced by
`WebSocketManager.handleMessage` for a single inbound text frame:
which status string (if any) is pushed to `onStatusChange`, which theme
(if any) to `onThemeChange`, the admin flag passed alongside the raw
text to `onSystemMessage`, and whether `onError(null)` is fired
(`statusUpdated` in the source). -/
structure ParseOut where
  status : Option String
  theme : Option String
  hasAdminMessage : Bool
  errorCleared : Bool
  deriving Repr, DecidableEq

/-- Outcome of an unrecognized message: no status change, no theme, no
admin flag, errors left in place (only the raw-message notification
happens). -/
def unrecognizedOut : ParseOut := ⟨none, none, false, false⟩

def statusLit : List Char := "[SYSTEM]: Статус — ".toList
def themeInputLit : List Char := "[SYSTEM]: Главный игрок вводит тему".toList
def situationLit : List Char := "[SYSTEM]: Ситуация: ".toList
def answerSavedLit : List Char := "[SYSTEM]: Ответ сохранён".toList
def resultLit : List Char := "[RESULT]:".toList
def statsLit : List Char := "[ALL_STATS]:".toList
def continueLit : List Char := "[SYSTEM]: Вы хотите продолжить? [YES/NO]".toList
def adminLit : List Char := "[SYSTEM]: Введите ситуацию".toList

/-- The theme notification made in the `[RESULT]:` branch: present iff
the regex capture exists and is a non-empty (truthy) string; the source
then notifies its `trim`. -/
def resultThemeEvent (msg : List Char) : Option String :=
  match resultThemeCap msg with
  | some c => if c ≠ [] then some (String.mk (trimChars c)) else none
  | none => none

/-- Stages 4–8 of the `handleMessage` else-if chain
(`'[SYSTEM]: Ответ сохранён'`, `[RESULT]:`, `[ALL_STATS]:`, the continue
prompt, `'[SYSTEM]: Введите ситуацию'`), then the unrecognized fallback. -/
def parseTail4 (msg : List Char) : ParseOut :=
  if msg = answerSavedLit then ⟨some "WAITING_FOR_GPT", none, false, true⟩
  else if containsSub resultLit msg then
    ⟨some "RESULTS_READY", resultThemeEvent msg, false, true⟩
  else if containsSub statsLit msg then ⟨some "STATS_READY", none, false, true⟩
  else if containsSub continueLit msg then ⟨none, none, false, true⟩
  else if msg = adminLit then ⟨some "MAIN_PLAYER_THINKING", none, true, true⟩
  else unrecognizedOut

/-- Stage 3 of the chain: `situationRegex.test` succeeded, i.e. the
literal `"[SYSTEM]: Ситуация: "` occurs.  The source re-matches and only
acts when the capture is truthy (non-empty); on an empty capture nothing
is notified and `statusUpdated` stays false. -/
def parseSituation (msg : List Char) : ParseOut :=
  match captureAfter situationLit msg with
  | some c =>
    if c ≠ [] then
      ⟨some "WAITING_FOR_PLAYER_MESSAGE_AFTER_PROMPT",
        some (String.mk (trimChars c)), false, true⟩
    else unrecognizedOut
  | none => parseTail4 msg

/-- Stage 2 of the chain: `themeInputRegex.test`. -/
def parseTail2 (msg : List Char) : ParseOut :=
  if containsSub themeInputLit msg then ⟨some "THEME_INPUT", none, false, true⟩
  else parseSituation msg

/-- `WebSocketManager.handleMessage` on a text frame, as the notification
batch it produces.  Stage 1: `statusRegex` with a truthy capture assigns
the trimmed capture verbatim as the new status; an empty capture falls
through to the rest of the chain. -/
def parseMessageL (msg : List Char) : ParseOut :=
  match captureAfter statusLit msg with
  | some c =>
    if c ≠ [] then ⟨some (String.mk (trimChars c)), none, false, true⟩
    else parseTail2 msg
  | none => parseTail2 msg

/-- `handleMessage` on a `String` frame. -/
def parseMessage (msg : String) : ParseOut :=
  parseMessageL msg.toList

/-! ## Admin-role flag of the `useWebSocketGame` hook

The hook subscribes to the manager and keeps `hasAdminMessage`.  For one
inbound frame the manager first notifies `onStatusChange` (the hook
resets the flag to `false` on `WAITING_FOR_PLAYERS` or `STATS_READY`),
then `onSystemMessage` (the hook sets the flag to `true` when the
manager's admin boolean is set, and also whenever the raw text contains
the phrase `"Введите ситуацию"`). -/

def adminPhrase : List Char := "Введите ситуацию".toList

/-- The value of the hook's `hasAdminMessage` flag after one raw frame
`msg` is processed, starting from value `flag`. -/
def adminStep (flag : Bool) (msg : String) : Bool :=
  let o := parseMessageL msg.toList
  let afterStatus :=
    match o.status with
    | some s => if s = "WAITING_FOR_PLAYERS" ∨ s = "STATS_READY" then false else flag
    | none => flag
  let afterFlag := if o.hasAdminMessage then true else afterStatus
  if containsSub adminPhrase msg.toList then true else afterFlag

/-! ## Connection registry (`WebSocketManager`)

`connections : Map<string, WebSocketConnection>` with
`subscribe` / `unsubscribe` / `sendMessage` / `closeConnection`.
The transport socket is modelled by its ready state and by whether
`send` throws; `created` counts calls to `createConnection` (each of
which instantiates exactly one `WebSocket`).  Timers are modelled as
scheduled events carrying their fire time in milliseconds. -/

def WS_CONNECTING : Nat := 0
def WS_OPEN : Nat := 1

/-- `WebSocketConnection`: the per-key record held by the manager. -/
structure Conn where
  id : Nat
  roomId : String
  userId : String
  isConnected : Bool
  reconnectAttempts : Nat
  reconnectTimeoutPending : Bool
  isManualClose : Bool
  subscriberCount : Nat
  readyState : Nat
  sendThrows : Bool
  deriving Repr, DecidableEq

/-- The registry singleton's state: the key-indexed connection map, the
number of `createConnection` calls made so far (= transport sockets
instantiated), and the pending idle-close timers as `(key, fireTime)`. -/
structure Registry where
  conns : List (String × Conn)
  created : Nat
  pendingCloses : List (String × Nat)
  deriving Repr, DecidableEq

def getConnectionKey (roomId userId : String) : String :=
  roomId ++ ":" ++ userId

def lookupConn (r : Registry) (key : String) : Option Conn :=
  (r.conns.find? (fun e => e.1 == key)).map (·.2)

/-- Replace the entry for `key` (if present) by `c`. -/
def setConn (l : List (String × Conn)) (key : String) (c : Conn) :
    List (String × Conn) :=
  l.map (fun e => if e.1 == key then (key, c) else e)

/-- `createConnection`: fresh record, socket starts `CONNECTING`, no
subscribers, zero reconnect attempts, no pending timer. -/
def createConnection (id : Nat) (roomId userId : String) : Conn :=
  { id := id, roomId := roomId, userId := userId, isConnected := false,
    reconnectAttempts := 0, reconnectTimeoutPending := false,
    isManualClose := false, subscriberCount := 0,
    readyState := WS_CONNECTING, sendThrows := false }

/-- `WebSocketManager.subscribe`: reuse the connection for the key if one
exists, otherwise create one and insert it; then add the subscriber.
Returns the new state and the id of the connection the subscriber was
attached to. -/
def subscribeM (r : Registry) (roomId userId : String) : Registry × Nat :=
  let key := getConnectionKey roomId userId
  match lookupConn r key with
  | some c =>
    ({ r with
        conns := setConn r.conns key { c with subscriberCount := c.subscriberCount + 1 } },
      c.id)
  | none =>
    let c := { createConnection r.created roomId userId with subscriberCount := 1 }
    ({ r with conns := (key, c) :: r.conns, created := r.created + 1 }, c.id)

/-- `closeConnection`: when the key is present, set the manual-close
flag, cancel any pending reconnect timer, request transport closure and
delete the registry entry. -/
def closeConnectionM (r : Registry) (roomId userId : String) : Registry :=
  let key := getConnectionKey roomId userId
  match lookupConn r key with
  | some _ => { r with conns := r.conns.filter (fun e => !(e.1 == key)) }
  | none => r

/-- The unsubscribe closure returned by `subscribe`, run at time `now`:
remove the subscriber; if the count reaches zero, schedule a close check
5000 ms later. -/
def unsubscribeM (r : Registry) (roomId userId : String) (now : Nat) : Registry :=
  let key := getConnectionKey roomId userId
  match lookupConn r key with
  | some c =>
    let c' := { c with subscriberCount := c.subscriberCount - 1 }
    let r' := { r with conns := setConn r.conns key c' }
    if c'.subscriberCount = 0 then
      { r' with pendingCloses := (key, now + 5000) :: r'.pendingCloses }
    else r'
  | none => r

/-- The idle-close timer callback: re-fetch the connection; close it only
when it still exists and still has zero subscribers, otherwise keep it. -/
def fireCloseM (r : Registry) (roomId userId : String) : Registry :=
  let key := getConnectionKey roomId userId
  match lookupConn r key with
  | some c =>
    if c.subscriberCount = 0 then closeConnectionM r roomId userId else r
  | none => r

/-! ## Reconnect policy (`onclose` + `scheduleReconnect`) -/

def MAX_RECONNECT_ATTEMPTS : Nat := 5
def RECONNECT_INTERVAL_MS : Nat := 3000

/-- What the `onclose` handler decides about reconnection: schedule a
reconnect with the post-increment attempt number and a delay in ms,
surface the terminal reconnect-limit error, or do nothing. -/
inductive CloseAction where
  | reconnect (attempts delay : Nat)
  | limitError
  | noAction
  deriving Repr, DecidableEq

/-- Per-room `onclose` reconnect decision: reconnect only when the close
was not manual, not clean, and the attempt counter is below the ceiling;
`scheduleReconnect` increments the counter first and computes
`RECONNECT_INTERVAL_MS * 2^(attempts-1)` from the incremented value. -/
def oncloseReconnectDecision (isManualClose wasClean : Bool) (attempts : Nat) :
    CloseAction :=
  if isManualClose = false ∧ wasClean = false ∧ attempts < MAX_RECONNECT_ATTEMPTS then
    .reconnect (attempts + 1) (RECONNECT_INTERVAL_MS * 2 ^ (attempts + 1 - 1))
  else if isManualClose = false ∧ wasClean = false then .limitError
  else .noAction

/-- The guard inside the per-room reconnect timer callback: the
reconnect only proceeds when at least one subscriber is registered. -/
def perRoomReconnectTimerFires (subscriberCount : Nat) : Bool :=
  decide (0 < subscriberCount)

/-- Actions of consecutive unclean, non-manual closures with no
successful reopen, starting from attempt counter `attempts`.  A
successful reconnect transplants the attempt counter onto the new
connection (`newConnection.reconnectAttempts = connection.reconnectAttempts`),
so the counter carries over between closures; the sequence ends at the
first non-reconnect decision. -/
def perRoomCloseTrace : Nat → Nat → List CloseAction
  | 0, _ => []
  | n + 1, attempts =>
    match oncloseReconnectDecision false false attempts with
    | .reconnect a d => .reconnect a d :: perRoomCloseTrace n a
    | act => [act]

/-! ## Manual close (`closeConnection` body, for the ordering claim) -/

/-- The externally visible steps of `closeConnection`, in program order. -/
inductive CCAct where
  | setManualFlag
  | cancelReconnectTimer
  | wsClose
  | deleteEntry
  deriving Repr, DecidableEq

/-- `closeConnection` on a present connection: set `isManualClose`, then
clear a pending reconnect timeout if there is one, then call `ws.close`
if the socket is `OPEN` or `CONNECTING`, then delete the map entry. -/
def closeConnActions (c : Conn) : List CCAct :=
  [.setManualFlag]
    ++ (if c.reconnectTimeoutPending then [.cancelReconnectTimer] else [])
    ++ (if c.readyState = WS_OPEN ∨ c.readyState = WS_CONNECTING then [.wsClose] else [])
    ++ [.deleteEntry]

/-! ## `sendMessage` -/

/-- An outbound payload: already a string, or a non-string value carried
together with its `JSON.stringify` serialization (the serializer itself
is a library call, modelled by its output). -/
inductive Payload where
  | str (s : String)
  | json (serialized : String)
  deriving Repr, DecidableEq

/-- `typeof message === 'string' ? message : JSON.stringify(message)`. -/
def serializeOutbound : Payload → String
  | .str s => s
  | .json j => j

/-- Result of `sendMessage`: the returned boolean, what was written to
the transport (if anything), the registry afterwards, and whether an
`onError` notification was emitted. -/
structure SendResult where
  ok : Bool
  transmitted : Option String
  state : Registry
  errorNotified : Bool
  deriving Repr, DecidableEq

/-- `WebSocketManager.sendMessage`: fail without transmitting when the
key has no connection or the socket is not `OPEN`; otherwise send the
(serialized) payload, returning `false` and notifying `onError` when
`ws.send` throws. -/
def sendMessageM (r : Registry) (roomId userId : String) (p : Payload) :
    SendResult :=
  let key := getConnectionKey roomId userId
  match lookupConn r key with
  | none => ⟨false, none, r, false⟩
  | some c =>
    if c.readyState ≠ WS_OPEN then ⟨false, none, r, false⟩
    else if c.sendThrows then ⟨false, none, r, true⟩
    else ⟨true, some (serializeOutbound p), r, false⟩

/-! ## Subscriber fan-out (`notifySubscribers`) -/

/-- Behaviour of one subscriber's handler for the notified method:
whether the method exists on the subscriber object and whether calling
it throws. -/
structure SubscriberBehavior where
  hasMethod : Bool
  throws : Bool
  deriving Repr, DecidableEq

/-- What happened to one subscriber during a fan-out. -/
inductive CallOutcome where
  | delivered
  | skippedNoMethod
  | threwCaught
  deriving Repr, DecidableEq

/-- The raw call to one subscriber, before any catching: a missing
method is only warned about (no exception), a throwing handler raises. -/
def rawCall (h : SubscriberBehavior) : Except String CallOutcome :=
  if h.hasMethod = false then .ok .skippedNoMethod
  else if h.throws then .error "subscriber handler threw"
  else .ok .delivered

/-- The per-subscriber `try { ... } catch` inside
`WebSocketManager.notifySubscribers`: an exception is logged and
converted into a normal outcome. -/
def catchOne (h : SubscriberBehavior) : Except String CallOutcome :=
  match rawCall h with
  | .ok o => .ok o
  | .error _ => .ok .threwCaught

/-- The fan-out loop over the subscriber set, sequenced in the exception
monad: an uncaught exception at any element would abort the rest of the
loop and propagate to the caller. -/
def notifyAll : List SubscriberBehavior → Except String (List CallOutcome)
  | [] => .ok []
  | h :: t =>
    match catchOne h with
    | .error e => .error e
    | .ok o =>
      match notifyAll t with
      | .error e => .error e
      | .ok os => .ok (o :: os)

/-- The raw call in `RoomsWebSocketManager.notifySubscribers`: there is
no method-existence check, the handler is invoked directly inside the
same per-subscriber `try`/`catch`. -/
def roomsRawCall (h : SubscriberBehavior) : Except String CallOutcome :=
  if h.throws then .error "subscriber handler threw" else .ok .delivered

def roomsCatchOne (h : SubscriberBehavior) : Except String CallOutcome :=
  match roomsRawCall h with
  | .ok o => .ok o
  | .error _ => .ok .threwCaught

def roomsNotifyAll : List SubscriberBehavior → Except String (List CallOutcome)
  | [] => .ok []
  | h :: t =>
    match roomsCatchOne h with
    | .error e => .error e
    | .ok o =>
      match roomsNotifyAll t with
      | .error e => .error e
      | .ok os => .ok (o :: os)

/-! ## Rooms feed (`RoomsWebSocketManager`) -/

/-- `RoomEvent`. -/
inductive RoomEvent where
  | CREATED
  | PLAYER_JOINED
  | FORCE_STARTED
  | ANSWERS_EVALUATED
  | CONTINUED
  | CLOSED
  deriving Repr, DecidableEq

/-- `RoomEventWithPlayer`. -/
structure RoomEventWithPlayer where
  type : RoomEvent
  player : Option String
  deriving Repr, DecidableEq

/-- The capture of `/PLAYER_JOINED\s*\((.+)\)/` against the text that
follows one occurrence of `PLAYER_JOINED`: greedy whitespace, a literal
`'('`, then the greedy non-newline capture backtracks to the last `')'`
in the same line, requiring at least one captured character. -/
def parenCap (s : List Char) : Option (List Char) :=
  match s.dropWhile Char.isWhitespace with
  | '(' :: rest =>
    let run := rest.takeWhile (· ≠ '\n')
    match (run.reverse.dropWhile (· ≠ ')')) with
    | ')' :: afterRev =>
      if afterRev ≠ [] then some afterRev.reverse else none
    | _ => none
  | _ => none

def playerJoinedLit : List Char := "PLAYER_JOINED".toList

/-- The full `playerJoinedMatch` capture on an action text: leftmost
occurrence of `PLAYER_JOINED` whose continuation matches. -/
def playerJoinedCap (s : List Char) : Option (List Char) :=
  (tailsAfter playerJoinedLit s).findSome? parenCap

def standardRoomActions : List String :=
  ["CREATED", "FORCE_STARTED", "ANSWERS_EVALUATED", "CONTINUED", "CLOSED"]

def roomEventOfName (a : String) : RoomEvent :=
  if a = "CREATED" then .CREATED
  else if a = "FORCE_STARTED" then .FORCE_STARTED
  else if a = "ANSWERS_EVALUATED" then .ANSWERS_EVALUATED
  else if a = "CONTINUED" then .CONTINUED
  else .CLOSED

/-- Classification of the trimmed action text in
`RoomsWebSocketManager.handleMessage`: a `PLAYER_JOINED (nick)` match
wins; else one of the five standard literals; else the fallback event
`{ type: 'CREATED', player: actionText }` that preserves the unknown
text verbatim. -/
def parseRoomAction (actionText : String) : RoomEventWithPlayer :=
  match playerJoinedCap actionText.toList with
  | some nick => ⟨.PLAYER_JOINED, some (String.mk (trimChars nick))⟩
  | none =>
    if actionText ∈ standardRoomActions then ⟨roomEventOfName actionText, none⟩
    else ⟨.CREATED, some actionText⟩

/-- The anchored split `/^([^:]+)\s*:\s*(.+)$/`: a non-empty colon-free
prefix, the first colon, then after greedy whitespace a non-empty
newline-free remainder reaching the end of the string (with `\s*`
backtracking when the remainder is all whitespace).  Returns the raw
`(match[1], match[2])` captures. -/
def roomsSplit (msg : List Char) : Option (List Char × List Char) :=
  match msg.splitOn ':' with
  | [] => none
  | [_] => none
  | pre :: rest =>
    if pre = [] then none
    else
      let post := (List.intersperse [':'] rest).flatten
      let core := post.dropWhile Char.isWhitespace
      if core ≠ [] then
        if core.contains '\n' then none else some (pre, core)
      else
        match post.getLast? with
        | some c => if c ≠ '\n' then some (pre, []) else none
        | none => none

/-- `RoomsWebSocketManager.handleMessage` on a text frame: `none` when
the line does not match the `"<roomId> : <ACTION>"` format (only a
warning is logged), otherwise the `(roomId, event)` pair passed to
`onRoomEvent`. -/
def roomsParse (msg : String) : Option (String × RoomEventWithPlayer) :=
  match roomsSplit msg.toList with
  | none => none
  | some (pre, cap2) =>
    some (String.mk (trimChars pre), parseRoomAction (String.mk (trimChars cap2)))

/-! ## Rooms feed reconnect policy -/

/-- `RoomsWebSocketManager.scheduleReconnect`: same manual/clean/ceiling
guards as the per-room manager, the attempt counter is incremented, but
the timer delay is the constant `RECONNECT_INTERVAL_MS`. -/
def roomsOncloseReconnectDecision (isManualClose wasClean : Bool) (attempts : Nat) :
    CloseAction :=
  if isManualClose = false ∧ wasClean = false ∧ attempts < MAX_RECONNECT_ATTEMPTS then
    .reconnect (attempts + 1) RECONNECT_INTERVAL_MS
  else if isManualClose = false ∧ wasClean = false then .limitError
  else .noAction

/-- The rooms reconnect timer callback is `() => this.reconnect(connection)`:
it proceeds regardless of the subscriber count. -/
def roomsReconnectTimerFires (_subscriberCount : Nat) : Bool := true

/-- Consecutive unclean, non-manual closures of the rooms feed (the
attempt counter is transplanted onto each replacement connection). -/
def roomsCloseTrace : Nat → Nat → List CloseAction
  | 0, _ => []
  | n + 1, attempts =>
    match roomsOncloseReconnectDecision false false attempts with
    | .reconnect a d => .reconnect a d :: roomsCloseTrace n a
    | act => [act]

/-- The Boolean guard `statusMatch && statusMatch[1]` of stage 1 of
`handleMessage`: the status regex matched and its capture is truthy
(non-empty). -/
def statusTruthy (m : List Char) : Bool :=
  !((captureAfter statusLit m).getD []).isEmpty

/-- An open connection and a one-entry registry, used to witness C9. -/
def openConnExample : Conn :=
  { createConnection 0 "r" "u" with readyState := WS_OPEN }

def openRegExample : Registry := ⟨[("r:u", openConnExample)], 1, []⟩

def emptyRegExample : Registry := ⟨[], 0, []⟩

/-- A connection with exactly one subscriber, and its registry, used to
witness C5. -/
def subConnExample : Conn :=
  { createConnection 0 "r" "u" with subscriberCount := 1 }

def subReg1Example : Registry := ⟨[("r:u", subConnExample)], 1, []⟩

/-! ## Helper lemmas -/

theorem captureAfter_eq_none (pat m : List Char) (h : containsSub pat m = false) :
    captureAfter pat m = none := by
  unfold containsSub at h
  have ha : afterFirst pat m = none := by
    cases hx : afterFirst pat m with
    | none => rfl
    | some v => rw [hx] at h; simp at h
  unfold captureAfter
  rw [ha]
  rfl

theorem statusTruthy_false_of_not_contains (m : List Char)
    (h : containsSub statusLit m = false) : statusTruthy m = false := by
  unfold statusTruthy
  rw [captureAfter_eq_none _ _ h]
  rfl

/-- When the stage-1 guard fails, `handleMessage` continues with the
stage-2 chain. -/
theorem parseMessageL_eq_tail2 (m : List Char) (h : statusTruthy m = false) :
    parseMessageL m = parseTail2 m := by
  unfold statusTruthy at h
  cases hc : captureAfter statusLit m with
  | none => simp only [parseMessageL, hc]
  | some c =>
    have hc0 : c = [] := by
      rw [hc] at h
      simpa using h
    simp only [parseMessageL, hc, hc0]
    rw [if_neg (by simp)]

/-- When the theme-input test fails, stage 2 continues with stage 3. -/
theorem parseTail2_eq_situation (m : List Char)
    (h : containsSub themeInputLit m = false) :
    parseTail2 m = parseSituation m := by
  unfold parseTail2
  rw [if_neg (by simp [h])]

/-- When the situation test fails, stage 3 continues with stages 4–8. -/
theorem parseSituation_eq_tail4 (m : List Char)
    (h : containsSub situationLit m = false) :
    parseSituation m = parseTail4 m := by
  simp only [parseSituation, captureAfter_eq_none _ _ h]

theorem find?_setConn (l : List (String × Conn)) (key : String) (c : Conn) :
    (setConn l key c).find? (fun e => e.1 == key) =
      (l.find? (fun e => e.1 == key)).map (fun _ => (key, c)) := by
  induction l with
  | nil => rfl
  | cons e t ih =>
    unfold setConn
    rw [List.map_cons]
    by_cases he : (e.1 == key) = true
    · rw [if_pos he]
      rw [List.find?_cons_of_pos (p := fun x : String × Conn => x.1 == key) _ (by simp),
        List.find?_cons_of_pos (p := fun x : String × Conn => x.1 == key) _ he]
      rfl
    · have he' : (e.1 == key) = false := by simpa using he
      rw [if_neg he]
      rw [List.find?_cons_of_neg (p := fun x : String × Conn => x.1 == key) _ (by simp [he']),
        List.find?_cons_of_neg (p := fun x : String × Conn => x.1 == key) _ (by simp [he'])]
      exact ih

theorem lookupConn_setConn (r : Registry) (key : String) (c c₀ : Conn)
    (h : lookupConn r key = some c₀) :
    lookupConn { r with conns := setConn r.conns key c } key = some c := by
  unfold lookupConn at h ⊢
  rw [find?_setConn]
  cases hf : r.conns.find? (fun e => e.1 == key) with
  | none => rw [hf] at h; simp at h
  | some e => simp

theorem find?_filter_out (l : List (String × Conn)) (key : String) :
    (l.filter (fun e => !(e.1 == key))).find? (fun e => e.1 == key) = none := by
  rw [List.find?_eq_none]
  intro e he
  have := List.of_mem_filter he
  simpa using this

/-! ## Claim theorems -/

/-- **C2.** Per-room reconnection: for consecutive unclean, non-manual
closures with no successful reopen, the attempt counter is incremented
before the delay is computed and the scheduled delays are exactly 3000,
6000, 12000, 24000 and 48000 ms for attempts 1 through 5; the 6th such
closure yields the terminal reconnect-limit error and schedules no
further reconnect (a longer closure sequence produces no further
actions). -/
theorem reconnect_backoff_sequence :
    perRoomCloseTrace 6 0 =
      [.reconnect 1 3000, .reconnect 2 6000, .reconnect 3 12000,
       .reconnect 4 24000, .reconnect 5 48000, .limitError] ∧
    perRoomCloseTrace 10 0 =
      [.reconnect 1 3000, .reconnect 2 6000, .reconnect 3 12000,
       .reconnect 4 24000, .reconnect 5 48000, .limitError] := by
  constructor <;> decide

/-- **C6.** A closure following a manual close request never schedules a
reconnect, whatever the clean flag and attempt counter; and
`closeConnection` on a connection with a pending reconnect timer and an
open socket performs, in order: set the manual flag, cancel the timer,
request transport closure, delete the entry — the timer is cancelled
before the transport closure is requested. -/
theorem manual_close_never_reconnects :
    (∀ (wasClean : Bool) (attempts : Nat),
      oncloseReconnectDecision true wasClean attempts = .noAction) ∧
    (∀ c : Conn, c.reconnectTimeoutPending = true → c.readyState = WS_OPEN →
      closeConnActions c =
        [.setManualFlag, .cancelReconnectTimer, .wsClose, .deleteEntry]) := by
  constructor
  · intro wasClean attempts
    simp [oncloseReconnectDecision]
  · intro c h1 h2
    simp [closeConnActions, h1, h2]

/-- Witness for C6 at a concrete connection. -/
theorem manual_close_never_reconnects_witness :
    oncloseReconnectDecision true false 3 = .noAction ∧
    closeConnActions
        { createConnection 0 "r" "u" with
            reconnectTimeoutPending := true, readyState := WS_OPEN } =
      [.setManualFlag, .cancelReconnectTimer, .wsClose, .deleteEntry] :=
  ⟨manual_close_never_reconnects.1 false 3,
   manual_close_never_reconnects.2 _ rfl rfl⟩

/-- **C7, counterexample.** The rooms-feed reconnection policy is not the
per-room exponential backoff: after the second unclean closure the
scheduled delay is the constant 3000 ms, not
`RECONNECT_INTERVAL_MS * 2^(2-1) = 6000` ms, and the rooms reconnect
timer fires even with zero subscribers while the per-room one does not. -/
theorem rooms_backoff_counterexample :
    roomsOncloseReconnectDecision false false 1 = .reconnect 2 3000 ∧
    RECONNECT_INTERVAL_MS * 2 ^ (2 - 1) = 6000 ∧
    CloseAction.reconnect 2 3000 ≠ CloseAction.reconnect 2 6000 ∧
    roomsReconnectTimerFires 0 = true ∧
    perRoomReconnectTimerFires 0 = false := by
  refine ⟨by decide, by decide, by decide, rfl, by decide⟩

/-- **C7, amended.** The rooms-feed variant shares the shape of the
per-room policy only in its guards: reconnect only on unclean,
non-manual closures, attempt counter incremented on scheduling, capped
at 5 attempts with a terminal error on the 6th closure, and manual close
suppresses reconnection; but every scheduled delay is the constant
3000 ms (no exponential backoff) and the timer callback reconnects
without re-checking the subscriber count. -/
theorem rooms_reconnect_policy :
    roomsCloseTrace 10 0 =
      [.reconnect 1 3000, .reconnect 2 3000, .reconnect 3 3000,
       .reconnect 4 3000, .reconnect 5 3000, .limitError] ∧
    (∀ n : Nat, roomsReconnectTimerFires n = true) ∧
    (∀ (wasClean : Bool) (attempts : Nat),
      roomsOncloseReconnectDecision true wasClean attempts = .noAction) := by
  refine ⟨by decide, fun n => rfl, ?_⟩
  intro wasClean attempts
  simp [roomsOncloseReconnectDecision]

/-- **C9.** `sendMessage` returns failure without transmitting and with
the registry unchanged and no notification when the key has no
connection or the socket is not open; on an open socket it transmits the
payload — a string verbatim, a non-string as its JSON serialization —
and returns success, or failure (with an error notification) when the
transport send throws. -/
theorem sendMessage_guards (r : Registry) (roomId userId : String) (p : Payload) :
    (lookupConn r (getConnectionKey roomId userId) = none →
      sendMessageM r roomId userId p = ⟨false, none, r, false⟩) ∧
    (∀ c, lookupConn r (getConnectionKey roomId userId) = some c →
      c.readyState ≠ WS_OPEN →
      sendMessageM r roomId userId p = ⟨false, none, r, false⟩) ∧
    (∀ c, lookupConn r (getConnectionKey roomId userId) = some c →
      c.readyState = WS_OPEN → c.sendThrows = false →
      sendMessageM r roomId userId p = ⟨true, some (serializeOutbound p), r, false⟩) ∧
    (∀ c, lookupConn r (getConnectionKey roomId userId) = some c →
      c.readyState = WS_OPEN → c.sendThrows = true →
      sendMessageM r roomId userId p = ⟨false, none, r, true⟩) ∧
    (∀ s, serializeOutbound (.str s) = s) ∧
    (∀ j, serializeOutbound (.json j) = j) := by
  refine ⟨?_, ?_, ?_, ?_, fun s => rfl, fun j => rfl⟩
  · intro h; simp [sendMessageM, h]
  · intro c h hrs; simp [sendMessageM, h, hrs]
  · intro c h hrs hst; simp [sendMessageM, h, hrs, hst]
  · intro c h hrs hst; simp [sendMessageM, h, hrs, hst]

/-- Witness for C9: no-connection failure on the empty registry, and a
successful verbatim send on an open connection. -/
theorem sendMessage_guards_witness :
    sendMessageM emptyRegExample "r" "u" (.str "YES") =
      ⟨false, none, emptyRegExample, false⟩ ∧
    sendMessageM openRegExample "r" "u" (.str "YES") =
      ⟨true, some "YES", openRegExample, false⟩ :=
  ⟨(sendMessage_guards emptyRegExample "r" "u" (.str "YES")).1 (by decide),
   (sendMessage_guards openRegExample "r" "u" (.str "YES")).2.2.1
      openConnExample (by decide) (by decide) (by decide)⟩

/-- **C10.** Subscriber fan-out isolates failures: for any subscriber
list, both managers' `notifySubscribers` loops return normally (never
propagate an exception to the caller) and produce one outcome per
subscriber — a handler that throws is caught and a missing handler only
skipped, neither preventing the remaining subscribers from being
notified. -/
theorem notify_fanout_total (subs : List SubscriberBehavior) :
    notifyAll subs = .ok (subs.map fun h =>
      if h.hasMethod = false then CallOutcome.skippedNoMethod
      else if h.throws then CallOutcome.threwCaught else CallOutcome.delivered) ∧
    roomsNotifyAll subs = .ok (subs.map fun h =>
      if h.throws then CallOutcome.threwCaught else CallOutcome.delivered) := by
  induction subs with
  | nil => constructor <;> rfl
  | cons h t ih =>
    refine ⟨?_, ?_⟩
    · cases hm : h.hasMethod <;> cases ht : h.throws <;>
        simp [notifyAll, catchOne, rawCall, hm, ht, ih.1]
    · cases ht : h.throws <;>
        simp [roomsNotifyAll, roomsCatchOne, roomsRawCall, ht, ih.2]

/-- **C4.** For a key with no existing entry, the first `subscribe`
creates exactly one `Connection` (one transport instantiation) and a
second `subscribe` for the same key creates none and attaches to the
same connection: after two subscribes the instantiation counter has
grown by exactly one and both subscribers were attached to the same
connection id. -/
theorem subscribe_single_connection (r : Registry) (roomId userId : String)
    (h : lookupConn r (getConnectionKey roomId userId) = none) :
    (subscribeM r roomId userId).1.created = r.created + 1 ∧
    (subscribeM (subscribeM r roomId userId).1 roomId userId).1.created =
      r.created + 1 ∧
    (subscribeM (subscribeM r roomId userId).1 roomId userId).2 =
      (subscribeM r roomId userId).2 := by
  have h1 : subscribeM r roomId userId =
      ({ r with
          conns := (getConnectionKey roomId userId,
            { createConnection r.created roomId userId with subscriberCount := 1 })
              :: r.conns,
          created := r.created + 1 }, r.created) := by
    simp only [subscribeM, h]
    rfl
  refine ⟨by rw [h1], ?_, ?_⟩
  · rw [h1]
    simp [subscribeM, lookupConn, List.find?]
  · rw [h1]
    simp [subscribeM, lookupConn, List.find?, createConnection]

/-- Witness for C4 on the empty registry. -/
theorem subscribe_single_connection_witness :
    (subscribeM emptyRegExample "room" "user").1.created = 1 ∧
    (subscribeM (subscribeM emptyRegExample "room" "user").1 "room" "user").1.created = 1 ∧
    (subscribeM (subscribeM emptyRegExample "room" "user").1 "room" "user").2 =
      (subscribeM emptyRegExample "room" "user").2 :=
  subscribe_single_connection emptyRegExample "room" "user" (by decide)

/-- **C5.** After the last subscriber unsubscribes, the connection is
still registered immediately (with zero subscribers) and a close check
is scheduled for 5000 ms later; when that check fires with the
subscriber count still zero the connection is closed and removed, but if
a new subscriber arrived during the grace window the check leaves the
connection in place. -/
theorem idle_close_grace (r : Registry) (roomId userId : String) (now : Nat)
    (c : Conn)
    (h : lookupConn r (getConnectionKey roomId userId) = some c)
    (h1 : c.subscriberCount = 1) :
    lookupConn (unsubscribeM r roomId userId now) (getConnectionKey roomId userId) =
      some { c with subscriberCount := 0 } ∧
    (getConnectionKey roomId userId, now + 5000) ∈
      (unsubscribeM r roomId userId now).pendingCloses ∧
    lookupConn (fireCloseM (unsubscribeM r roomId userId now) roomId userId)
      (getConnectionKey roomId userId) = none ∧
    lookupConn
      (fireCloseM (subscribeM (unsubscribeM r roomId userId now) roomId userId).1
        roomId userId)
      (getConnectionKey roomId userId) = some { c with subscriberCount := 1 } := by
  have hr1 : unsubscribeM r roomId userId now =
      { r with
          conns := setConn r.conns (getConnectionKey roomId userId)
            { c with subscriberCount := 0 },
          pendingCloses :=
            (getConnectionKey roomId userId, now + 5000) :: r.pendingCloses } := by
    simp only [unsubscribeM, h, h1]
    simp
  have hl1 : lookupConn (unsubscribeM r roomId userId now)
      (getConnectionKey roomId userId) = some { c with subscriberCount := 0 } := by
    rw [hr1]
    exact lookupConn_setConn r _ _ c h
  refine ⟨hl1, ?_, ?_, ?_⟩
  · rw [hr1]
    exact List.mem_cons_self _ _
  · have hclosed : closeConnectionM (unsubscribeM r roomId userId now) roomId userId =
        { unsubscribeM r roomId userId now with
            conns := (unsubscribeM r roomId userId now).conns.filter
              (fun e => !(e.1 == getConnectionKey roomId userId)) } := by
      simp only [closeConnectionM, hl1]
    simp only [fireCloseM, hl1, if_pos rfl, hclosed]
    simp [lookupConn, find?_filter_out]
  · have hs : subscribeM (unsubscribeM r roomId userId now) roomId userId =
        ({ unsubscribeM r roomId userId now with
            conns := setConn (unsubscribeM r roomId userId now).conns
              (getConnectionKey roomId userId) { c with subscriberCount := 1 } },
          c.id) := by
      simp only [subscribeM, hl1]
    have hl2 : lookupConn (subscribeM (unsubscribeM r roomId userId now) roomId userId).1
        (getConnectionKey roomId userId) = some { c with subscriberCount := 1 } := by
      rw [hs]
      exact lookupConn_setConn _ _ _ { c with subscriberCount := 0 } hl1
    simp only [fireCloseM, hl2]
    rw [if_neg (by simp)]
    exact hl2

/-- Witness for C5 on a one-subscriber registry: the 5000 ms pending
close, the immediate survival, the close at fire time, and the skip when
a subscriber returned during the window. -/
theorem idle_close_grace_witness :
    lookupConn (unsubscribeM subReg1Example "r" "u" 0) (getConnectionKey "r" "u") =
      some { subConnExample with subscriberCount := 0 } ∧
    (getConnectionKey "r" "u", 0 + 5000) ∈
      (unsubscribeM subReg1Example "r" "u" 0).pendingCloses ∧
    lookupConn (fireCloseM (unsubscribeM subReg1Example "r" "u" 0) "r" "u")
      (getConnectionKey "r" "u") = none ∧
    lookupConn
      (fireCloseM (subscribeM (unsubscribeM subReg1Example "r" "u" 0) "r" "u").1 "r" "u")
      (getConnectionKey "r" "u") = some { subConnExample with subscriberCount := 1 } :=
  idle_close_grace subReg1Example "r" "u" 0 subConnExample (by decide) (by decide)

/-- Processing a message whose derived status is neither
`WAITING_FOR_PLAYERS` nor `STATS_READY` never clears the admin flag. -/
theorem adminStep_stays_true (m : String)
    (h1 : (parseMessage m).status ≠ some "WAITING_FOR_PLAYERS")
    (h2 : (parseMessage m).status ≠ some "STATS_READY") :
    adminStep true m = true := by
  unfold parseMessage at h1 h2
  simp only [String.toList] at h1 h2
  cases hs : (parseMessageL m.data).status with
  | none => simp [adminStep, String.toList, hs]
  | some s =>
    have hs1 : s ≠ "WAITING_FOR_PLAYERS" := fun e => h1 (by rw [hs, e])
    have hs2 : s ≠ "STATS_READY" := fun e => h2 (by rw [hs, e])
    simp [adminStep, String.toList, hs, hs1, hs2]

/-- **C3.** The hook's detected-admin flag becomes true whenever the
admin phrase "Введите ситуацию" is observed, whatever the flag's prior
value (so also after a non-admin phrase); once true it is cleared only
by a message whose derived status is `WAITING_FOR_PLAYERS` or
`STATS_READY`; and over any message sequence free of those two statuses
the flag stays true. -/
theorem admin_flag_sticky :
    (∀ (flag : Bool) (msg : String),
      containsSub adminPhrase msg.toList = true → adminStep flag msg = true) ∧
    (∀ msg : String, adminStep true msg = false →
      (parseMessage msg).status = some "WAITING_FOR_PLAYERS" ∨
      (parseMessage msg).status = some "STATS_READY") ∧
    (∀ msgs : List String,
      (∀ m ∈ msgs, (parseMessage m).status ≠ some "WAITING_FOR_PLAYERS" ∧
        (parseMessage m).status ≠ some "STATS_READY") →
      List.foldl adminStep true msgs = true) := by
  refine ⟨?_, ?_, ?_⟩
  · intro flag msg hc
    simp only [String.toList] at hc
    simp [adminStep, String.toList, hc]
  · intro msg hfalse
    by_contra hcon
    push_neg at hcon
    exact absurd (adminStep_stays_true msg hcon.1 hcon.2) (by simp [hfalse])
  · intro msgs hall
    induction msgs with
    | nil => rfl
    | cons m t ih =>
      rw [List.foldl_cons,
        adminStep_stays_true m (hall m (by simp)).1 (hall m (by simp)).2]
      exact ih (fun x hx => hall x (by simp [hx]))

/-- Witness for C3: the admin literal sets the flag from `false`, and a
round of non-admin traffic (theme-input phrase) leaves a set flag set. -/
theorem admin_flag_sticky_witness :
    containsSub adminPhrase "[SYSTEM]: Введите ситуацию".toList = true ∧
    adminStep false "[SYSTEM]: Введите ситуацию" = true ∧
    List.foldl adminStep true ["[SYSTEM]: Главный игрок вводит тему"] = true :=
  ⟨by decide, admin_flag_sticky.1 false _ (by decide),
   admin_flag_sticky.2.2 _ (by decide)⟩

/-- The five standard room actions never map to `PLAYER_JOINED`. -/
theorem roomEventOfName_ne_playerJoined (a : String) :
    roomEventOfName a ≠ .PLAYER_JOINED := by
  unfold roomEventOfName
  split_ifs <;> decide

/-- An action classified as `PLAYER_JOINED` always carries a player. -/
theorem parseRoomAction_playerJoined_hasPlayer (a : String)
    (h : (parseRoomAction a).type = .PLAYER_JOINED) :
    (parseRoomAction a).player.isSome = true := by
  unfold parseRoomAction at h ⊢
  cases hc : playerJoinedCap a.toList with
  | some nick => simp [hc]
  | none =>
    simp only [hc] at h
    by_cases ha : a ∈ standardRoomActions
    · rw [if_pos ha] at h
      exact absurd h (roomEventOfName_ne_playerJoined a)
    · rw [if_neg ha] at h
      simp at h

/-- **C8, counterexample.** An unrecognized action text produces a
fallback event of type `CREATED` that *does* carry the verbatim text in
its player field, so the claim that events of every type other than
`PLAYER_JOINED` carry no player identifier is false on the code. -/
theorem rooms_fallback_counterexample :
    roomsParse "room1 : WEIRD_ACTION" =
      some ("room1", ⟨.CREATED, some "WEIRD_ACTION"⟩) ∧
    RoomEvent.CREATED ≠ RoomEvent.PLAYER_JOINED ∧
    (some "WEIRD_ACTION" ≠ (none : Option String)) :=
  ⟨by decide, by decide, by decide⟩

/-- **C8, amended.** Every `PLAYER_JOINED` event produced by the
rooms-feed parser carries a player identifier; events for the five
recognized standard actions carry none; and an unrecognized action text
is preserved verbatim, tagged with the fallback type `CREATED` and
stored in the player field (so such fallback events do carry a player
payload). -/
theorem rooms_event_player_invariant :
    (∀ a : String, (parseRoomAction a).type = .PLAYER_JOINED →
      (parseRoomAction a).player.isSome = true) ∧
    (∀ (msg rid : String) (ev : RoomEventWithPlayer),
      roomsParse msg = some (rid, ev) → ev.type = .PLAYER_JOINED →
      ev.player.isSome = true) ∧
    (∀ a ∈ standardRoomActions, (parseRoomAction a).player = none) ∧
    (∀ a : String, playerJoinedCap a.toList = none → a ∉ standardRoomActions →
      parseRoomAction a = ⟨.CREATED, some a⟩) := by
  refine ⟨parseRoomAction_playerJoined_hasPlayer, ?_, by decide, ?_⟩
  · intro msg rid ev h hPJ
    unfold roomsParse at h
    cases hsp : roomsSplit msg.toList with
    | none => rw [hsp] at h; simp at h
    | some pc =>
      obtain ⟨pre, cap⟩ := pc
      rw [hsp] at h
      simp only [Option.some.injEq, Prod.mk.injEq] at h
      rw [← h.2] at hPJ ⊢
      exact parseRoomAction_playerJoined_hasPlayer _ hPJ
  · intro a h1 h2
    simp only [String.toList] at h1
    simp [parseRoomAction, String.toList, h1, h2]

/-- Witness for C8 (amended): a standard action carries no player, an
unknown action is preserved under the fallback type, and a concrete
`PLAYER_JOINED` feed line carries its player. -/
theorem rooms_event_player_invariant_witness :
    (parseRoomAction "CREATED").player = none ∧
    parseRoomAction "XYZ" = ⟨.CREATED, some "XYZ"⟩ ∧
    Option.isSome (some "Bob") = true :=
  ⟨rooms_event_player_invariant.2.2.1 "CREATED" (by decide),
   rooms_event_player_invariant.2.2.2 "XYZ" (by decide) (by decide),
   rooms_event_player_invariant.2.1 "r : PLAYER_JOINED (Bob)" "r"
     ⟨.PLAYER_JOINED, some "Bob"⟩ (by decide) rfl⟩

/-- **C1.** The message parser realizes the eight-pattern precedence
table: (1) a status line with a truthy capture assigns the trimmed
capture verbatim; (2) the theme-input phrase gives `THEME_INPUT`;
(3) a situation line with a truthy capture gives the trimmed theme and
`WAITING_FOR_PLAYER_MESSAGE_AFTER_PROMPT`; (4) the exact answer-saved
literal gives `WAITING_FOR_GPT`; (5) a `[RESULT]:` message gives
`RESULTS_READY` plus a theme-changed event exactly when non-empty text
precedes a `→` delimiter; (6) an `[ALL_STATS]:` message gives
`STATS_READY`; (7) the continue prompt changes no status; (8) the exact
admin literal gives `MAIN_PLAYER_THINKING` with the admin flag true.
Every successful match clears the recorded error (`errorCleared`), and a
string matching none of the eight patterns changes no status and clears
no error — only the raw-message notification occurs. -/
theorem handleMessage_parse_table (msg : String) :
    (∀ c, captureAfter statusLit msg.toList = some c → c ≠ [] →
      parseMessage msg = ⟨some (String.mk (trimChars c)), none, false, true⟩) ∧
    (statusTruthy msg.toList = false →
      containsSub themeInputLit msg.toList = true →
      parseMessage msg = ⟨some "THEME_INPUT", none, false, true⟩) ∧
    (statusTruthy msg.toList = false →
      containsSub themeInputLit msg.toList = false →
      ∀ c, captureAfter situationLit msg.toList = some c → c ≠ [] →
      parseMessage msg =
        ⟨some "WAITING_FOR_PLAYER_MESSAGE_AFTER_PROMPT",
          some (String.mk (trimChars c)), false, true⟩) ∧
    (statusTruthy msg.toList = false →
      containsSub themeInputLit msg.toList = false →
      containsSub situationLit msg.toList = false →
      msg.toList = answerSavedLit →
      parseMessage msg = ⟨some "WAITING_FOR_GPT", none, false, true⟩) ∧
    (statusTruthy msg.toList = false →
      containsSub themeInputLit msg.toList = false →
      containsSub situationLit msg.toList = false →
      msg.toList ≠ answerSavedLit →
      containsSub resultLit msg.toList = true →
      parseMessage msg =
        ⟨some "RESULTS_READY", resultThemeEvent msg.toList, false, true⟩) ∧
    (∀ c, resultThemeCap msg.toList = some c → c ≠ [] →
      resultThemeEvent msg.toList = some (String.mk (trimChars c))) ∧
    (resultThemeCap msg.toList = none → resultThemeEvent msg.toList = none) ∧
    (statusTruthy msg.toList = false →
      containsSub themeInputLit msg.toList = false →
      containsSub situationLit msg.toList = false →
      msg.toList ≠ answerSavedLit →
      containsSub resultLit msg.toList = false →
      containsSub statsLit msg.toList = true →
      parseMessage msg = ⟨some "STATS_READY", none, false, true⟩) ∧
    (statusTruthy msg.toList = false →
      containsSub themeInputLit msg.toList = false →
      containsSub situationLit msg.toList = false →
      msg.toList ≠ answerSavedLit →
      containsSub resultLit msg.toList = false →
      containsSub statsLit msg.toList = false →
      containsSub continueLit msg.toList = true →
      parseMessage msg = ⟨none, none, false, true⟩) ∧
    (statusTruthy msg.toList = false →
      containsSub themeInputLit msg.toList = false →
      containsSub situationLit msg.toList = false →
      msg.toList ≠ answerSavedLit →
      containsSub resultLit msg.toList = false →
      containsSub statsLit msg.toList = false →
      containsSub continueLit msg.toList = false →
      msg.toList = adminLit →
      parseMessage msg = ⟨some "MAIN_PLAYER_THINKING", none, true, true⟩) ∧
    (containsSub statusLit msg.toList = false →
      containsSub themeInputLit msg.toList = false →
      containsSub situationLit msg.toList = false →
      msg.toList ≠ answerSavedLit →
      containsSub resultLit msg.toList = false →
      containsSub statsLit msg.toList = false →
      containsSub continueLit msg.toList = false →
      msg.toList ≠ adminLit →
      parseMessage msg = unrecognizedOut) := by
  refine ⟨?_, ?_, ?_, ?_, ?_, ?_, ?_, ?_, ?_, ?_, ?_⟩
  · intro c hc hne
    unfold parseMessage
    simp only [parseMessageL, hc]
    rw [if_pos hne]
  · intro h1 h2
    unfold parseMessage
    rw [parseMessageL_eq_tail2 _ h1]
    unfold parseTail2
    rw [if_pos h2]
  · intro h1 h2 c hc hne
    unfold parseMessage
    rw [parseMessageL_eq_tail2 _ h1, parseTail2_eq_situation _ h2]
    simp only [parseSituation, hc]
    rw [if_pos hne]
  · intro h1 h2 h3 h4
    unfold parseMessage
    rw [parseMessageL_eq_tail2 _ h1, parseTail2_eq_situation _ h2,
      parseSituation_eq_tail4 _ h3]
    unfold parseTail4
    rw [if_pos h4]
  · intro h1 h2 h3 h4 h5
    unfold parseMessage
    rw [parseMessageL_eq_tail2 _ h1, parseTail2_eq_situation _ h2,
      parseSituation_eq_tail4 _ h3]
    unfold parseTail4
    rw [if_neg h4, if_pos h5]
  · intro c hc hne
    simp only [resultThemeEvent, hc]
    rw [if_pos hne]
  · intro hc
    simp only [resultThemeEvent, hc]
  · intro h1 h2 h3 h4 h5 h6
    unfold parseMessage
    rw [parseMessageL_eq_tail2 _ h1, parseTail2_eq_situation _ h2,
      parseSituation_eq_tail4 _ h3]
    unfold parseTail4
    rw [if_neg h4, if_neg (ne_true_of_eq_false h5), if_pos h6]
  · intro h1 h2 h3 h4 h5 h6 h7
    unfold parseMessage
    rw [parseMessageL_eq_tail2 _ h1, parseTail2_eq_situation _ h2,
      parseSituation_eq_tail4 _ h3]
    unfold parseTail4
    rw [if_neg h4, if_neg (ne_true_of_eq_false h5), if_neg (ne_true_of_eq_false h6),
      if_pos h7]
  · intro h1 h2 h3 h4 h5 h6 h7 h8
    unfold parseMessage
    rw [parseMessageL_eq_tail2 _ h1, parseTail2_eq_situation _ h2,
      parseSituation_eq_tail4 _ h3]
    unfold parseTail4
    rw [if_neg h4, if_neg (ne_true_of_eq_false h5), if_neg (ne_true_of_eq_false h6),
      if_neg (ne_true_of_eq_false h7), if_pos h8]
  · intro h1 h2 h3 h4 h5 h6 h7 h8
    unfold parseMessage
    rw [parseMessageL_eq_tail2 _ (statusTruthy_false_of_not_contains _ h1),
      parseTail2_eq_situation _ h2, parseSituation_eq_tail4 _ h3]
    unfold parseTail4
    rw [if_neg h4, if_neg (ne_true_of_eq_false h5), if_neg (ne_true_of_eq_false h6),
      if_neg (ne_true_of_eq_false h7), if_neg h8]

/-- Witness for C1: the admin literal (pattern 8), a situation line
(pattern 3) and an unmatched string (fallback), each with its
hypotheses discharged concretely. -/
theorem handleMessage_parse_table_witness :
    parseMessage "[SYSTEM]: Введите ситуацию" =
      ⟨some "MAIN_PLAYER_THINKING", none, true, true⟩ ∧
    parseMessage "[SYSTEM]: Ситуация: Zombie outbreak" =
      ⟨some "WAITING_FOR_PLAYER_MESSAGE_AFTER_PROMPT", some "Zombie outbreak",
        false, true⟩ ∧
    parseMessage "hello" = unrecognizedOut :=
  ⟨(handleMessage_parse_table "[SYSTEM]: Введите ситуацию").2.2.2.2.2.2.2.2.2.1
      (by decide) (by decide) (by decide) (by decide) (by decide) (by decide)
      (by decide) (by decide),
   (handleMessage_parse_table "[SYSTEM]: Ситуация: Zombie outbreak").2.2.1
      (by decide) (by decide) "Zombie outbreak".toList (by decide) (by decide),
   (handleMessage_parse_table "hello").2.2.2.2.2.2.2.2.2.2
      (by decide) (by decide) (by decide) (by decide) (by decide) (by decide)
      (by decide) (by decide)⟩

end EnvelopeApp
